import Mathlib

/-!
Verification of the error-classification and diagnostic-logging subsystem of
`ollama-lmstudio-proxy-rust` (`src/utils.rs`), as a shallow embedding in Lean 4.

Modelling conventions:
* Rust `String`/`&str` become Lean `String`; `str::contains` (substring search)
  becomes an explicit structural infix check over character lists, which is
  equivalent to Rust's byte-level search because UTF-8 is self-synchronizing.
* Rust `str::to_lowercase` is modelled as a per-character lowercase map
  (ASCII-faithful; every phrase tested by the code is ASCII).
* `std::time::Duration` becomes a structure of whole seconds and nanoseconds,
  with `as_millis` computed exactly as in the Rust standard library.
* Side effects (stdout, the global logging flag, the thread-local buffer)
  become explicit state passing over a `LogState` record.
-/

/-- Embedding of Rust `str::is_prefix`-style check: `List.isPrefixOf` is reused,
and `hasInfix pat hay` decides whether `pat` occurs contiguously inside `hay`. -/
def hasInfix (pat : List Char) : List Char → Bool
  | [] => pat.isEmpty
  | c :: t => pat.isPrefixOf (c :: t) || hasInfix pat t

/-- Embedding of Rust `hay.contains(pat)` (substring containment). -/
def containsSub (hay pat : String) : Bool :=
  hasInfix pat.toList hay.toList

/-- Embedding of Rust `str::to_lowercase` (ASCII-faithful character map). -/
def to_lower (s : String) : String :=
  String.mk (s.toList.map Char.toLower)

/-- `hasInfix` decides the `List.IsInfix` relation. -/
theorem hasInfix_iff (pat hay : List Char) : hasInfix pat hay = true ↔ pat <:+: hay := by
  induction hay with
  | nil => simp [hasInfix, List.isEmpty_iff, List.infix_nil]
  | cons c t ih =>
    simp [hasInfix, List.infix_cons_iff, List.isPrefixOf_iff_prefix, ih]

/-- Substring containment respects infix ordering of the patterns: if `p` occurs
inside `q` and `q` occurs inside `hay`, then `p` occurs inside `hay`. -/
theorem containsSub_of_infix {hay p q : String} (hpq : p.toList <:+: q.toList)
    (h : containsSub hay q = true) : containsSub hay p = true := by
  rw [containsSub, hasInfix_iff] at h ⊢
  exact hpq.trans h

/-- The explicit model-loading indicator phrases from `is_model_loading_error`
(`src/utils.rs`, `loading_indicators`). -/
def loading_indicators : List String :=
  ["loading model", "model loading", "model is loading", "loading the model",
   "model not loaded", "not loaded", "model unavailable", "model not available",
   "model not found", "no model", "invalid model", "unknown model",
   "failed to load", "loading failed", "model error", "is not embedding",
   "model initialization", "initializing model", "warming up model",
   "model startup", "preparing model", "model not ready"]

/-- The LM-Studio backend-distress phrases from `is_model_loading_error`
(`src/utils.rs`, `lm_studio_loading_patterns`). -/
def lm_studio_loading_patterns : List String :=
  ["service unavailable", "server error", "internal error",
   "timeout", "connection", "503", "500"]

/-- Embedding of `is_model_loading_error` (`src/utils.rs` lines 237-272). -/
def is_model_loading_error (message : String) : Bool :=
  let lower := to_lower message
  if loading_indicators.any (fun pattern => containsSub lower pattern) then
    true
  else
    let has_negative := containsSub lower "no" || containsSub lower "not" ||
      containsSub lower "missing" || containsSub lower "invalid" ||
      containsSub lower "unknown" || containsSub lower "failed" ||
      containsSub lower "unavailable" || containsSub lower "unreachable"
    let has_model_ref := containsSub lower "model" || containsSub lower "load" ||
      containsSub lower "available" || containsSub lower "ready" ||
      containsSub lower "initialize"
    let has_lm_studio_loading :=
      lm_studio_loading_patterns.any (fun pattern => containsSub lower pattern)
    (has_negative && has_model_ref) || has_lm_studio_loading

/-- The negative keywords of the classifier's combination rule, as the spec lists them. -/
def negative_keywords : List String :=
  ["no", "not", "missing", "invalid", "unknown", "failed", "unavailable", "unreachable"]

/-- The model-reference keywords of the classifier's combination rule, as the spec lists them. -/
def model_ref_keywords : List String :=
  ["model", "load", "available", "ready", "initialize"]

/-- C1: `is_model_loading_error` returns true iff the lower-cased message contains an
explicit loading phrase, or contains both a negative keyword and a model-reference
keyword, or contains a backend-distress phrase; in particular a message containing an
explicit loading phrase (such as "Model is loading") yields true, and a message
containing none of the three signal classes (such as "Request succeeded") yields false. -/
theorem is_model_loading_error_spec :
    (∀ m : String, is_model_loading_error m = true ↔
      ((∃ p ∈ loading_indicators, containsSub (to_lower m) p = true) ∨
       ((∃ p ∈ negative_keywords, containsSub (to_lower m) p = true) ∧
        (∃ p ∈ model_ref_keywords, containsSub (to_lower m) p = true)) ∨
       (∃ p ∈ lm_studio_loading_patterns, containsSub (to_lower m) p = true))) ∧
    is_model_loading_error "Model is loading" = true ∧
    is_model_loading_error "Request succeeded" = false := by
  refine ⟨fun m => ?_, by decide, by decide⟩
  unfold is_model_loading_error
  simp only [List.any_eq_true]
  split
  · rename_i hexp
    exact iff_of_true rfl (Or.inl hexp)
  · rename_i hexp
    simp only [Bool.or_eq_true, Bool.and_eq_true, List.any_eq_true]
    constructor
    · rintro (⟨hn, hm⟩ | hd)
      · refine Or.inr (Or.inl ⟨?_, ?_⟩)
        · simp only [negative_keywords, List.exists_mem_cons_iff, List.not_mem_nil,
            false_and, exists_false, or_false]
          tauto
        · simp only [model_ref_keywords, List.exists_mem_cons_iff, List.not_mem_nil,
            false_and, exists_false, or_false]
          tauto
      · exact Or.inr (Or.inr hd)
    · rintro (h | ⟨hn, hm⟩ | hd)
      · exact absurd h hexp
      · refine Or.inl ⟨?_, ?_⟩
        · simp only [negative_keywords, List.exists_mem_cons_iff, List.not_mem_nil,
            false_and, exists_false, or_false] at hn
          tauto
        · simp only [model_ref_keywords, List.exists_mem_cons_iff, List.not_mem_nil,
            false_and, exists_false, or_false] at hm
          tauto
      · exact Or.inr hd

/-- Modelled from the spec: the fixed cancellation string `ERROR_CANCELLED` lives in
`crate::constants`, which is not under `src/`; the spec only requires that
`requestCancelled()` uses a fixed cancellation message. -/
def ERROR_CANCELLED : String := "Request cancelled"

/-- Embedding of the private `ProxyErrorKind` enum (`src/utils.rs` lines 125-135). -/
inductive ProxyErrorKind where
  | RequestCancelled
  | InternalServerError
  | BadRequest
  | NotFound
  | NotImplemented
  | LMStudioUnavailable
  | ModelLoading
  | Custom
deriving DecidableEq, Repr

/-- Embedding of the `ProxyError` struct (`src/utils.rs` lines 118-123); `u16`
status codes are modelled as `Nat` (no arithmetic is ever performed on them). -/
structure ProxyError where
  message : String
  status_code : Nat
  kind : ProxyErrorKind
deriving Repr

/-- Embedding of `ProxyError::new` (caller-supplied status, kind `Custom`). -/
def ProxyError.new (message : String) (status_code : Nat) : ProxyError :=
  ⟨message, status_code, ProxyErrorKind.Custom⟩

/-- Embedding of `ProxyError::internal_server_error`. -/
def ProxyError.internal_server_error (message : String) : ProxyError :=
  ⟨message, 500, ProxyErrorKind.InternalServerError⟩

/-- Embedding of `ProxyError::bad_request`. -/
def ProxyError.bad_request (message : String) : ProxyError :=
  ⟨message, 400, ProxyErrorKind.BadRequest⟩

/-- Embedding of `ProxyError::not_found`. -/
def ProxyError.not_found (message : String) : ProxyError :=
  ⟨message, 404, ProxyErrorKind.NotFound⟩

/-- Embedding of `ProxyError::not_implemented`. -/
def ProxyError.not_implemented (message : String) : ProxyError :=
  ⟨message, 501, ProxyErrorKind.NotImplemented⟩

/-- Embedding of `ProxyError::request_cancelled` (no message argument). -/
def ProxyError.request_cancelled : ProxyError :=
  ⟨ERROR_CANCELLED, 499, ProxyErrorKind.RequestCancelled⟩

/-- Embedding of `ProxyError::lm_studio_unavailable` (the spec's `backendUnavailable`). -/
def ProxyError.lm_studio_unavailable (message : String) : ProxyError :=
  ⟨message, 503, ProxyErrorKind.LMStudioUnavailable⟩

/-- Embedding of `ProxyError::model_loading`. -/
def ProxyError.model_loading (message : String) : ProxyError :=
  ⟨message, 503, ProxyErrorKind.ModelLoading⟩

/-- Embedding of `ProxyError::is_cancelled` (a `matches!` on the kind). -/
def ProxyError.is_cancelled (e : ProxyError) : Bool :=
  match e.kind with
  | ProxyErrorKind.RequestCancelled => true
  | _ => false

/-- Embedding of `ProxyError::is_lm_studio_unavailable` (the spec's `isBackendUnavailable`). -/
def ProxyError.is_lm_studio_unavailable (e : ProxyError) : Bool :=
  match e.kind with
  | ProxyErrorKind.LMStudioUnavailable => true
  | _ => false

/-- Embedding of `ProxyError::is_model_loading` (`src/utils.rs` lines 221-223):
a kind match OR-ed with the text classifier re-run on the stored message. -/
def ProxyError.is_model_loading (e : ProxyError) : Bool :=
  (match e.kind with
   | ProxyErrorKind.ModelLoading => true
   | _ => false) || is_model_loading_error e.message

/-- C2: `is_model_loading` holds iff the kind is `ModelLoading` or the message text
matches the classifier, and in particular a `Custom` error (built by `new`) and an
`LMStudioUnavailable` error whose text indicates loading both satisfy it. -/
theorem is_model_loading_pred_spec :
    (∀ e : ProxyError, e.is_model_loading = true ↔
      (e.kind = ProxyErrorKind.ModelLoading ∨ is_model_loading_error e.message = true)) ∧
    (ProxyError.new "loading model" 418).kind = ProxyErrorKind.Custom ∧
    (ProxyError.new "loading model" 418).is_model_loading = true ∧
    (ProxyError.lm_studio_unavailable "model not loaded").is_model_loading = true := by
  refine ⟨fun e => ?_, by decide, by decide, by decide⟩
  rcases e with ⟨msg, sc, k⟩
  cases k <;> simp [ProxyError.is_model_loading]

/-- C5: every constructor fixes `kind` and `status_code` together (500, 400, 404, 501,
499 with the fixed cancellation message, 503, 503, and caller-supplied for `new`),
`is_cancelled` holds exactly on kind `RequestCancelled`, `is_lm_studio_unavailable`
holds exactly on kind `LMStudioUnavailable`, and the two spec examples evaluate as
stated. -/
theorem proxy_error_constructor_spec :
    (∀ m, (ProxyError.internal_server_error m).kind = ProxyErrorKind.InternalServerError ∧
          (ProxyError.internal_server_error m).status_code = 500 ∧
          (ProxyError.internal_server_error m).message = m) ∧
    (∀ m, (ProxyError.bad_request m).kind = ProxyErrorKind.BadRequest ∧
          (ProxyError.bad_request m).status_code = 400 ∧
          (ProxyError.bad_request m).message = m) ∧
    (∀ m, (ProxyError.not_found m).kind = ProxyErrorKind.NotFound ∧
          (ProxyError.not_found m).status_code = 404 ∧
          (ProxyError.not_found m).message = m) ∧
    (∀ m, (ProxyError.not_implemented m).kind = ProxyErrorKind.NotImplemented ∧
          (ProxyError.not_implemented m).status_code = 501 ∧
          (ProxyError.not_implemented m).message = m) ∧
    (ProxyError.request_cancelled.kind = ProxyErrorKind.RequestCancelled ∧
     ProxyError.request_cancelled.status_code = 499 ∧
     ProxyError.request_cancelled.message = ERROR_CANCELLED) ∧
    (∀ m, (ProxyError.lm_studio_unavailable m).kind = ProxyErrorKind.LMStudioUnavailable ∧
          (ProxyError.lm_studio_unavailable m).status_code = 503 ∧
          (ProxyError.lm_studio_unavailable m).message = m) ∧
    (∀ m, (ProxyError.model_loading m).kind = ProxyErrorKind.ModelLoading ∧
          (ProxyError.model_loading m).status_code = 503 ∧
          (ProxyError.model_loading m).message = m) ∧
    (∀ m s, (ProxyError.new m s).kind = ProxyErrorKind.Custom ∧
            (ProxyError.new m s).status_code = s ∧
            (ProxyError.new m s).message = m) ∧
    (∀ e : ProxyError, e.is_cancelled = true ↔ e.kind = ProxyErrorKind.RequestCancelled) ∧
    (∀ e : ProxyError, e.is_lm_studio_unavailable = true ↔
      e.kind = ProxyErrorKind.LMStudioUnavailable) ∧
    ProxyError.request_cancelled.is_cancelled = true ∧
    ProxyError.request_cancelled.status_code = 499 ∧
    (ProxyError.lm_studio_unavailable "x").is_lm_studio_unavailable = true ∧
    (ProxyError.lm_studio_unavailable "x").status_code = 503 := by
  refine ⟨fun m => ⟨rfl, rfl, rfl⟩, fun m => ⟨rfl, rfl, rfl⟩, fun m => ⟨rfl, rfl, rfl⟩,
    fun m => ⟨rfl, rfl, rfl⟩, ⟨rfl, rfl, rfl⟩, fun m => ⟨rfl, rfl, rfl⟩,
    fun m => ⟨rfl, rfl, rfl⟩, fun m s => ⟨rfl, rfl, rfl⟩, fun e => ?_, fun e => ?_,
    rfl, rfl, rfl, rfl⟩
  · rcases e with ⟨msg, sc, k⟩
    cases k <;> simp [ProxyError.is_cancelled]
  · rcases e with ⟨msg, sc, k⟩
    cases k <;> simp [ProxyError.is_lm_studio_unavailable]

/-- Embedding of the `ModelLoadingErrorType` enum (`src/utils.rs` lines 281-288). -/
inductive ModelLoadingErrorType where
  | ModelNotFound
  | ModelNotLoaded
  | ModelLoading
  | ModelFailed
  | ServiceUnavailable
  | Unknown
deriving DecidableEq, Repr

/-- Embedding of `classify_model_loading_error` (`src/utils.rs` lines 290-306). -/
def classify_model_loading_error (message : String) : ModelLoadingErrorType :=
  let lower := to_lower message
  if containsSub lower "not found" || containsSub lower "unknown model" ||
     containsSub lower "invalid model" then
    ModelLoadingErrorType.ModelNotFound
  else if containsSub lower "not loaded" || containsSub lower "model unavailable" then
    ModelLoadingErrorType.ModelNotLoaded
  else if containsSub lower "loading" || containsSub lower "initializing" ||
          containsSub lower "warming up" then
    ModelLoadingErrorType.ModelLoading
  else if containsSub lower "failed to load" || containsSub lower "loading failed" then
    ModelLoadingErrorType.ModelFailed
  else if containsSub lower "service unavailable" || containsSub lower "503" ||
          containsSub lower "timeout" then
    ModelLoadingErrorType.ServiceUnavailable
  else
    ModelLoadingErrorType.Unknown

/-- The NotFound phrase group of the subtype classifier, as the spec lists it. -/
def not_found_phrases : List String := ["not found", "unknown model", "invalid model"]

/-- The NotLoaded phrase group of the subtype classifier, as the spec lists it. -/
def not_loaded_phrases : List String := ["not loaded", "model unavailable"]

/-- The Loading phrase group of the subtype classifier, as the spec lists it. -/
def loading_phrases : List String := ["loading", "initializing", "warming up"]

/-- The FailedToLoad phrase group of the subtype classifier, as the spec lists it. -/
def failed_to_load_phrases : List String := ["failed to load", "loading failed"]

/-- The ServiceUnavailable phrase group of the subtype classifier, as the spec lists it. -/
def service_unavailable_phrases : List String := ["service unavailable", "503", "timeout"]

/-- Whether `hay` contains any of the phrases in `pats`. -/
def containsAny (hay : String) (pats : List String) : Bool :=
  pats.any (fun p => containsSub hay p)

/-- The subtype classifier is exactly the first-match-wins cascade over the five
spec phrase groups. -/
theorem classify_model_loading_error_eq (m : String) :
    classify_model_loading_error m =
      (if containsAny (to_lower m) not_found_phrases then ModelLoadingErrorType.ModelNotFound
       else if containsAny (to_lower m) not_loaded_phrases then
         ModelLoadingErrorType.ModelNotLoaded
       else if containsAny (to_lower m) loading_phrases then ModelLoadingErrorType.ModelLoading
       else if containsAny (to_lower m) failed_to_load_phrases then
         ModelLoadingErrorType.ModelFailed
       else if containsAny (to_lower m) service_unavailable_phrases then
         ModelLoadingErrorType.ServiceUnavailable
       else ModelLoadingErrorType.Unknown) := by
  unfold classify_model_loading_error containsAny
  simp only [not_found_phrases, not_loaded_phrases, loading_phrases, failed_to_load_phrases,
    service_unavailable_phrases, List.any_cons, List.any_nil, Bool.or_false, Bool.or_assoc]

/-- C3: `classify_model_loading_error` lower-cases the message and tests the phrase
groups in the fixed priority order NotFound, NotLoaded, Loading, FailedToLoad,
ServiceUnavailable, with the first match winning and `Unknown` otherwise; the three
spec examples evaluate as stated. -/
theorem classify_model_loading_error_spec :
    (∀ m : String, classify_model_loading_error m =
      (if containsAny (to_lower m) not_found_phrases then ModelLoadingErrorType.ModelNotFound
       else if containsAny (to_lower m) not_loaded_phrases then
         ModelLoadingErrorType.ModelNotLoaded
       else if containsAny (to_lower m) loading_phrases then ModelLoadingErrorType.ModelLoading
       else if containsAny (to_lower m) failed_to_load_phrases then
         ModelLoadingErrorType.ModelFailed
       else if containsAny (to_lower m) service_unavailable_phrases then
         ModelLoadingErrorType.ServiceUnavailable
       else ModelLoadingErrorType.Unknown)) ∧
    classify_model_loading_error "model not found" = ModelLoadingErrorType.ModelNotFound ∧
    classify_model_loading_error "loading model, please wait" =
      ModelLoadingErrorType.ModelLoading ∧
    classify_model_loading_error "everything is fine" = ModelLoadingErrorType.Unknown :=
  ⟨classify_model_loading_error_eq, by decide, by decide, by decide⟩

/-- C10: a message whose lower-cased form contains "loading failed" but no NotFound
and no NotLoaded phrase is classified `ModelLoading`, never `ModelFailed`, because
"loading failed" contains the substring "loading" and the `ModelLoading` branch has
higher priority than the `ModelFailed` branch. -/
theorem loading_failed_priority (m : String)
    (h : containsSub (to_lower m) "loading failed" = true)
    (hnf : containsAny (to_lower m) not_found_phrases = false)
    (hnl : containsAny (to_lower m) not_loaded_phrases = false) :
    classify_model_loading_error m = ModelLoadingErrorType.ModelLoading ∧
    classify_model_loading_error m ≠ ModelLoadingErrorType.ModelFailed := by
  have hload : containsSub (to_lower m) "loading" = true :=
    containsSub_of_infix ⟨[], " failed".toList, by decide⟩ h
  have hany : containsAny (to_lower m) loading_phrases = true := by
    simp [containsAny, loading_phrases, hload]
  rw [classify_model_loading_error_eq]
  simp [hnf, hnl, hany]

/-- Witness for C10 at the concrete message "loading failed". -/
theorem loading_failed_priority_witness :
    containsSub (to_lower "loading failed") "loading failed" = true ∧
    containsAny (to_lower "loading failed") not_found_phrases = false ∧
    containsAny (to_lower "loading failed") not_loaded_phrases = false ∧
    (classify_model_loading_error "loading failed" = ModelLoadingErrorType.ModelLoading ∧
     classify_model_loading_error "loading failed" ≠ ModelLoadingErrorType.ModelFailed) :=
  ⟨by decide, by decide, by decide,
   loading_failed_priority "loading failed" (by decide) (by decide) (by decide)⟩

/-- Embedding of `std::time::Duration`: whole seconds plus a nanosecond part. -/
structure Duration where
  secs : Nat
  nanos : Nat
deriving Repr

/-- Total nanoseconds of a duration (Rust `Duration::as_nanos`). -/
def Duration.toNanos (d : Duration) : Nat :=
  d.secs * 1000000000 + d.nanos

/-- Embedding of `Duration::as_millis` (truncating, as in the Rust standard library). -/
def Duration.as_millis (d : Duration) : Nat :=
  d.secs * 1000 + d.nanos / 1000000

/-- Embedding of `is_probable_model_loading_by_timing` (`src/utils.rs` lines 275-277). -/
def is_probable_model_loading_by_timing (duration : Duration) (threshold_ms : Nat) : Bool :=
  decide (duration.as_millis > threshold_ms)

/-- The comparison the claim states, from the spec's words: the elapsed duration
strictly exceeds the threshold expressed in milliseconds (exact, sub-millisecond
comparison of the underlying time quantities). -/
def strictlyExceedsMillis (d : Duration) (threshold_ms : Nat) : Prop :=
  d.toNanos > threshold_ms * 1000000

/-- Counterexample to C4 as stated: at elapsed = 2 s + 1 ns and threshold = 2000 ms
the elapsed duration strictly exceeds the threshold, yet the function returns false,
because `as_millis` truncates to whole milliseconds before comparing. -/
theorem timing_strict_counterexample :
    strictlyExceedsMillis ⟨2, 1⟩ 2000 ∧
    is_probable_model_loading_by_timing ⟨2, 1⟩ 2000 = false := by
  constructor
  · show (2 * 1000000000 + 1 : Nat) > 2000 * 1000000
    norm_num
  · decide

/-- C4 (amended): the timing rule is true iff the elapsed duration truncated to whole
milliseconds strictly exceeds the threshold, equivalently iff the elapsed duration
reaches thresholdMillis + 1 whole milliseconds; the three boundary examples of the
spec evaluate as stated. -/
theorem timing_threshold_spec :
    (∀ (d : Duration) (t : Nat),
      is_probable_model_loading_by_timing d t = true ↔ (t + 1) * 1000000 ≤ d.toNanos) ∧
    is_probable_model_loading_by_timing ⟨5, 0⟩ 2000 = true ∧
    is_probable_model_loading_by_timing ⟨1, 0⟩ 2000 = false ∧
    is_probable_model_loading_by_timing ⟨2, 0⟩ 2000 = false := by
  refine ⟨fun d t => ?_, by decide, by decide, by decide⟩
  have h1 : d.toNanos = 1000000 * (d.secs * 1000) + d.nanos := by
    unfold Duration.toNanos; ring
  have h2 : d.as_millis = d.toNanos / 1000000 := by
    rw [h1, Nat.mul_add_div (by norm_num)]
    rfl
  rw [is_probable_model_loading_by_timing, decide_eq_true_iff, gt_iff_lt,
    Nat.lt_iff_add_one_le, h2, Nat.le_div_iff_mul_le (by norm_num)]

/-- Embedding of Rust `char::is_control` (the Unicode Cc category:
U+0000 to U+001F and U+007F to U+009F). -/
def is_control_char (c : Char) : Bool :=
  c.toNat < 32 || (127 ≤ c.toNat && c.toNat ≤ 159)

/-- The per-character replacement closure of `sanitize_log_message`:
`if c.is_control() && !matches!(c, '\t' | '\n' | '\r') { '?' } else { c }`. -/
def sanitizeChar (c : Char) : Char :=
  if is_control_char c && !(c == '\t' || c == '\n' || c == '\r') then '?' else c

/-- Embedding of `sanitize_log_message` (`src/utils.rs` lines 342-347). -/
def sanitize_log_message (message : String) : String :=
  String.mk (message.toList.map sanitizeChar)

/-- The per-character behaviour the claim states: tab, newline and carriage return
are kept, every other control character becomes `?`, and everything else is
unchanged. -/
def sanitizeCharSpec (c : Char) : Char :=
  if c = '\t' ∨ c = '\n' ∨ c = '\r' then c
  else if is_control_char c then '?' else c

/-- The code's replacement closure agrees with the claim's per-character rule. -/
theorem sanitizeChar_eq_spec (c : Char) : sanitizeChar c = sanitizeCharSpec c := by
  unfold sanitizeChar sanitizeCharSpec
  by_cases h1 : c = '\t' <;> by_cases h2 : c = '\n' <;> by_cases h3 : c = '\r' <;>
    by_cases h4 : is_control_char c = true <;> simp_all

/-- The replacement closure is idempotent on characters. -/
theorem sanitizeChar_idem (c : Char) : sanitizeChar (sanitizeChar c) = sanitizeChar c := by
  by_cases h : (is_control_char c && !(c == '\t' || c == '\n' || c == '\r')) = true
  · have h1 : sanitizeChar c = '?' := by unfold sanitizeChar; rw [if_pos h]
    rw [h1]; decide
  · have h1 : sanitizeChar c = c := by unfold sanitizeChar; rw [if_neg h]
    rw [h1]; exact h1

/-- C6: `sanitize_log_message` maps each character through the claim's rule (keeping
tab, newline and carriage return, replacing every other control character with `?`,
keeping every non-control character), never removes characters (the length is
preserved), and is idempotent. -/
theorem sanitize_log_message_spec :
    (∀ s : String, (sanitize_log_message s).toList = s.toList.map sanitizeCharSpec) ∧
    (∀ s : String, (sanitize_log_message s).length = s.length) ∧
    (∀ s : String, sanitize_log_message (sanitize_log_message s) = sanitize_log_message s) := by
  refine ⟨fun s => ?_, fun s => ?_, fun s => ?_⟩
  · show s.toList.map sanitizeChar = s.toList.map sanitizeCharSpec
    exact List.map_congr_left (fun c _ => sanitizeChar_eq_spec c)
  · show (s.toList.map sanitizeChar).length = s.toList.length
    exact List.length_map _ _
  · show String.mk ((s.toList.map sanitizeChar).map sanitizeChar) =
      String.mk (s.toList.map sanitizeChar)
    rw [List.map_map]
    congr 1
    exact List.map_congr_left (fun c _ => sanitizeChar_idem c)

/-- The fixed, ordered proxy-header list of `extract_client_ip`. -/
def ip_headers : List String :=
  ["x-forwarded-for", "x-real-ip", "cf-connecting-ip", "x-client-ip"]

/-- A header collection, modelled as name/value pairs with first-match lookup
(as `HeaderMap::get` behaves for the already-lowercased names the code queries). -/
def headers_get (headers : List (String × String)) (name : String) : Option String :=
  (headers.find? (fun p => p.fst == name)).map (fun p => p.snd)

/-- Whitespace as trimmed by Rust `str::trim` (ASCII core). -/
def is_ws (c : Char) : Bool :=
  c == ' ' || c == '\t' || c == '\n' || c == '\r'

/-- Embedding of Rust `str::trim`: drop whitespace from both ends. -/
def rust_trim (s : String) : String :=
  String.mk (((s.toList.dropWhile is_ws).reverse.dropWhile is_ws).reverse)

/-- Embedding of `ip_str.split(',').next().unwrap_or(ip_str)`: the characters before
the first comma (the whole string when there is no comma). -/
def before_first_comma (s : String) : String :=
  String.mk (s.toList.takeWhile (fun c => c != ','))

/-- The processing `extract_client_ip` applies to one header value. -/
def client_ip_of_value (v : String) : String :=
  rust_trim (before_first_comma v)

/-- The header-name loop of `extract_client_ip`, with its early return. -/
def extract_client_ip_go (headers : List (String × String)) : List String → Option String
  | [] => none
  | name :: rest =>
    match headers_get headers name with
    | some v =>
      let ip := client_ip_of_value v
      if !ip.isEmpty then some ip else extract_client_ip_go headers rest
    | none => extract_client_ip_go headers rest

/-- Embedding of `extract_client_ip` (`src/utils.rs` lines 350-368). -/
def extract_client_ip (headers : List (String × String)) : Option String :=
  extract_client_ip_go headers ip_headers

/-- The header loop returns the first non-empty processed value along the name list. -/
theorem extract_client_ip_go_eq (headers : List (String × String)) (names : List String) :
    extract_client_ip_go headers names =
      (names.filterMap (fun name =>
        (headers_get headers name).bind (fun v =>
          if (client_ip_of_value v).isEmpty then none
          else some (client_ip_of_value v)))).head? := by
  induction names with
  | nil => rfl
  | cons name rest ih =>
    cases h : headers_get headers name with
    | none => simp [extract_client_ip_go, h, List.filterMap_cons, ih]
    | some v =>
      by_cases hv : (client_ip_of_value v).isEmpty = true
      · simp [extract_client_ip_go, h, hv, List.filterMap_cons, ih]
      · simp [extract_client_ip_go, h, hv, List.filterMap_cons]

/-- C7: `extract_client_ip` walks the fixed header list in order and returns the first
header value that yields a non-empty string after cutting at the first comma and
trimming, and `none` when no header yields a non-empty value; the spec examples
evaluate as stated, and a syntactically invalid address is returned unvalidated. -/
theorem extract_client_ip_spec :
    (∀ headers : List (String × String),
      extract_client_ip headers =
        (ip_headers.filterMap (fun name =>
          (headers_get headers name).bind (fun v =>
            if (client_ip_of_value v).isEmpty then none
            else some (client_ip_of_value v)))).head?) ∧
    extract_client_ip [("x-forwarded-for", "10.0.0.1, 10.0.0.2")] = some "10.0.0.1" ∧
    extract_client_ip [("x-real-ip", "")] = none ∧
    extract_client_ip [("content-type", "text/html")] = none ∧
    extract_client_ip [("x-real-ip", "not an ip")] = some "not an ip" :=
  ⟨fun headers => extract_client_ip_go_eq headers ip_headers,
   by decide, by decide, by decide, by decide⟩

/-- Modelled from the spec: the configuration record from `crate::server` (not under
`src/`): "a configuration record containing a listen address string and a backend
base URL string". -/
structure Config where
  listen : String
  lmstudio_url : String

/-- Split a character list at every occurrence of a separator character. -/
def split_on_char (sep : Char) : List Char → List (List Char)
  | [] => [[]]
  | c :: t =>
    let r := split_on_char sep t
    if c == sep then [] :: r
    else
      match r with
      | [] => [[c]]
      | h :: t2 => (c :: h) :: t2

/-- Whether every character in the list is an ASCII digit. -/
def all_digits (l : List Char) : Bool :=
  l.all (fun c => c.isDigit)

/-- Numeric value of a list of ASCII digits. -/
def digits_nat (l : List Char) : Nat :=
  l.foldl (fun acc c => acc * 10 + (c.toNat - 48)) 0

/-- Modelled from the spec: one octet of a dotted-quad IPv4 address as accepted by
the standard library socket-address parser (external library code): a non-empty
digit string of at most three digits, no leading zero unless exactly "0", value
at most 255. -/
def ipv4_octet_ok (l : List Char) : Bool :=
  !l.isEmpty && all_digits l && decide (l.length ≤ 3) &&
    (l == ['0'] || l.head? != some '0') && decide (digits_nat l ≤ 255)

/-- A decimal port number of at most five digits valued at most 65535. -/
def port_ok (l : List Char) : Bool :=
  !l.isEmpty && all_digits l && decide (l.length ≤ 5) && decide (digits_nat l ≤ 65535)

/-- Modelled from the spec: `config.listen.parse::<std::net::SocketAddr>()` succeeding
(external library code), modelled as a dotted-quad IPv4 address, a colon, and a port. -/
def parses_as_socket_addr (s : String) : Bool :=
  match split_on_char ':' s.toList with
  | [ip, port] =>
    (match split_on_char '.' ip with
     | [a, b, c, d] => ipv4_octet_ok a && ipv4_octet_ok b && ipv4_octet_ok c && ipv4_octet_ok d
     | _ => false) && port_ok port
  | _ => false

/-- Embedding of Rust `str::starts_with`. -/
def starts_with (s pat : String) : Bool :=
  pat.toList.isPrefixOf s.toList

/-- Modelled from the spec: `url::Url::parse` succeeding (external library code),
modelled as requiring a non-empty authority after the `http://` or `https://` scheme
(`validate_config` only reaches this parse for such URLs). -/
def url_parse_ok (s : String) : Bool :=
  if starts_with s "http://" then
    !((s.toList.drop 7).takeWhile (fun c => c != '/')).isEmpty
  else if starts_with s "https://" then
    !((s.toList.drop 8).takeWhile (fun c => c != '/')).isEmpty
  else false

/-- Embedding of `validate_config` (`src/utils.rs` lines 322-334). The third error
message interpolates the library's parse-error value in the source; the model carries
the URL instead, since that value is external. -/
def validate_config (config : Config) : Except String Unit :=
  if !(parses_as_socket_addr config.listen) then
    Except.error ("Invalid listen address: " ++ config.listen)
  else if !(starts_with config.lmstudio_url "http://") &&
          !(starts_with config.lmstudio_url "https://") then
    Except.error ("Invalid LM Studio URL (must start with http:// or https://): " ++
      config.lmstudio_url)
  else if !(url_parse_ok config.lmstudio_url) then
    Except.error ("Invalid LM Studio URL format: " ++ config.lmstudio_url)
  else Except.ok ()

/-- C8: `validate_config` succeeds iff all three checks pass (listen address parses,
backend URL has an http/https prefix, backend URL parses), reports the first failing
check in order (address first, then scheme prefix), and the spec's three examples
evaluate as stated. Totality of the Lean function reflects that the code never
panics on malformed input. -/
theorem validate_config_spec :
    (∀ c : Config, validate_config c = Except.ok () ↔
      (parses_as_socket_addr c.listen = true ∧
       (starts_with c.lmstudio_url "http://" || starts_with c.lmstudio_url "https://") = true ∧
       url_parse_ok c.lmstudio_url = true)) ∧
    (∀ c : Config, parses_as_socket_addr c.listen = false →
      validate_config c = Except.error ("Invalid listen address: " ++ c.listen)) ∧
    (∀ c : Config, parses_as_socket_addr c.listen = true →
      (starts_with c.lmstudio_url "http://" || starts_with c.lmstudio_url "https://") = false →
      validate_config c = Except.error
        ("Invalid LM Studio URL (must start with http:// or https://): " ++ c.lmstudio_url)) ∧
    validate_config ⟨"not-an-address", "http://localhost:1234"⟩ =
      Except.error "Invalid listen address: not-an-address" ∧
    validate_config ⟨"127.0.0.1:8080", "ftp://host"⟩ =
      Except.error "Invalid LM Studio URL (must start with http:// or https://): ftp://host" ∧
    validate_config ⟨"127.0.0.1:8080", "http://localhost:1234"⟩ = Except.ok () := by
  refine ⟨fun c => ?_, fun c h1 => ?_, fun c h1 h2 => ?_, by rfl, by rfl, by rfl⟩
  · unfold validate_config
    cases h1 : parses_as_socket_addr c.listen <;>
      cases h2 : starts_with c.lmstudio_url "http://" <;>
        cases h3 : starts_with c.lmstudio_url "https://" <;>
          cases h4 : url_parse_ok c.lmstudio_url <;>
            simp [h1, h2, h3, h4]
  · unfold validate_config
    simp [h1]
  · unfold validate_config
    rcases Bool.or_eq_false_iff.mp h2 with ⟨ha, hb⟩
    simp [h1, ha, hb]

/-- Witness for C8's conditional conjuncts at the spec's concrete inputs. -/
theorem validate_config_spec_witness :
    parses_as_socket_addr "not-an-address" = false ∧
    validate_config ⟨"not-an-address", "ftp://host"⟩ =
      Except.error "Invalid listen address: not-an-address" ∧
    parses_as_socket_addr "127.0.0.1:8080" = true ∧
    (starts_with "ftp://host" "http://" || starts_with "ftp://host" "https://") = false ∧
    validate_config ⟨"127.0.0.1:8080", "ftp://host"⟩ =
      Except.error "Invalid LM Studio URL (must start with http:// or https://): ftp://host" :=
  ⟨by decide,
   validate_config_spec.2.1 ⟨"not-an-address", "ftp://host"⟩ (by decide),
   by decide, by decide,
   validate_config_spec.2.2.1 ⟨"127.0.0.1:8080", "ftp://host"⟩ (by decide) (by decide)⟩

/-- Modelled from the spec: the warning glyph `LOG_PREFIX_WARNING` from
`crate::constants` (not under `src/`); a fixed severity glyph. -/
def LOG_PREFIX_WARNING : String := "⚠️"

/-- Modelled from the spec: the error glyph `LOG_PREFIX_ERROR` from
`crate::constants` (not under `src/`); a fixed severity glyph. -/
def LOG_PREFIX_ERROR : String := "❌"

/-- Modelled from the spec: the request glyph `LOG_PREFIX_REQUEST` from
`crate::constants` (not under `src/`); a fixed severity glyph. -/
def LOG_PREFIX_REQUEST : String := "📨"

/-- Embedding of `format_duration` (`src/utils.rs` lines 309-319); the `f64` decimal
formatting of the source is rendered with truncating integer arithmetic, which is
immaterial to the claims (no claim evaluates an enabled-logger output). -/
def format_duration (d : Duration) : String :=
  let total_nanos := d.toNanos
  if total_nanos < 1000000 then
    toString (total_nanos / 1000) ++ "." ++ toString (total_nanos / 100 % 10) ++ "µs"
  else if total_nanos < 1000000000 then
    toString (total_nanos / 1000000) ++ "." ++ toString (total_nanos / 10000 % 100) ++ "ms"
  else
    toString (total_nanos / 1000000000) ++ "." ++
      toString (total_nanos / 10000000 % 100) ++ "s"

/-- The observable state the logging subsystem touches: the process-wide enable flag
(`LOGGING_ENABLED`), the per-thread reusable buffer (`STRING_BUFFER`), and the lines
written to standard output, modelled as explicit state. -/
structure LogState where
  logging_enabled : Bool
  string_buffer : String
  stdout : List String

/-- Embedding of `init_global_logger` (`src/utils.rs` lines 21-23). -/
def init_global_logger (enabled : Bool) (s : LogState) : LogState :=
  { s with logging_enabled := enabled }

/-- Embedding of `is_logging_enabled` (`src/utils.rs` lines 27-29). -/
def is_logging_enabled (s : LogState) : Bool :=
  s.logging_enabled

/-- Embedding of `log_info` (`src/utils.rs` lines 34-38); the `chrono` wall-clock
timestamp is passed in as `now`. -/
def log_info (now message : String) (s : LogState) : LogState :=
  if is_logging_enabled s then
    { s with stdout := s.stdout ++ ["[" ++ now ++ "] ℹ️ " ++ sanitize_log_message message] }
  else s

/-- Embedding of `log_warning` (`src/utils.rs` lines 41-50): clears and refills the
reusable buffer, then prints it with the timestamp. -/
def log_warning (now operation warning : String) (s : LogState) : LogState :=
  if is_logging_enabled s then
    let buffer := LOG_PREFIX_WARNING ++ " " ++ sanitize_log_message operation ++ ": " ++
      sanitize_log_message warning
    { s with string_buffer := buffer, stdout := s.stdout ++ ["[" ++ now ++ "] " ++ buffer] }
  else s

/-- Embedding of `log_error` (`src/utils.rs` lines 53-62). -/
def log_error (now operation err : String) (s : LogState) : LogState :=
  if is_logging_enabled s then
    let buffer := LOG_PREFIX_ERROR ++ " " ++ sanitize_log_message operation ++ " failed: " ++
      sanitize_log_message err
    { s with string_buffer := buffer, stdout := s.stdout ++ ["[" ++ now ++ "] " ++ buffer] }
  else s

/-- Embedding of `log_request` (`src/utils.rs` lines 65-77). -/
def log_request (now method path : String) (model : Option String) (s : LogState) : LogState :=
  if is_logging_enabled s then
    let buffer :=
      match model with
      | some m => LOG_PREFIX_REQUEST ++ " " ++ method ++ " " ++ sanitize_log_message path ++
          " (model: " ++ sanitize_log_message m ++ ")"
      | none => LOG_PREFIX_REQUEST ++ " " ++ method ++ " " ++ sanitize_log_message path
    { s with string_buffer := buffer, stdout := s.stdout ++ ["[" ++ now ++ "] " ++ buffer] }
  else s

/-- Embedding of `log_timed` (`src/utils.rs` lines 80-90); the elapsed time since
the start instant is passed in as a `Duration`. -/
def log_timed (now pfx operation : String) (elapsed : Duration) (s : LogState) : LogState :=
  if is_logging_enabled s then
    let buffer := pfx ++ " " ++ operation ++ " | " ++ format_duration elapsed
    { s with string_buffer := buffer, stdout := s.stdout ++ ["[" ++ now ++ "] " ++ buffer] }
  else s

/-- C9: once the flag is set to disabled via `init_global_logger`, each of the five
logging functions is the identity on the observable state for all arguments: nothing
is written to standard output and the buffer and flag are untouched. -/
theorem logging_disabled_noop :
    ∀ (s : LogState) (now msg op w e method path pfx oper : String)
      (model : Option String) (d : Duration),
      log_info now msg (init_global_logger false s) = init_global_logger false s ∧
      log_warning now op w (init_global_logger false s) = init_global_logger false s ∧
      log_error now op e (init_global_logger false s) = init_global_logger false s ∧
      log_request now method path model (init_global_logger false s) =
        init_global_logger false s ∧
      log_timed now pfx oper d (init_global_logger false s) = init_global_logger false s := by
  intro s now msg op w e method path pfx oper model d
  refine ⟨?_, ?_, ?_, ?_, ?_⟩ <;>
    simp [log_info, log_warning, log_error, log_request, log_timed,
      is_logging_enabled, init_global_logger]
